import Mathlib

/-
Shallow embedding of the FileMaker Data API client (src/src/client.ts).

The client's runtime values are JavaScript values produced by JSON parsing,
so we model parsed JSON with an inductive type `Json`, and JavaScript's
`undefined` with a wrapper `JsVal`.  Property access, indexing, optional
chaining, nullish coalescing, truthiness and string coercion are modelled
with the exact JavaScript semantics the client relies on.
-/

namespace FmDataApi

/-- A parsed JSON value (result of a successful response.json()). -/
inductive Json where
  | null
  | bool (b : Bool)
  | num (n : Int)
  | str (s : String)
  | arr (xs : List Json)
  | obj (fields : List (String × Json))

/-- A JavaScript value: either `undefined` or a JSON value. -/
inductive JsVal where
  | undef
  | val (v : Json)

/-- First-match lookup of a key in a JS object's field list. -/
def objLookup (fields : List (String × Json)) (k : String) : Option Json :=
  match fields with
  | [] => none
  | (k2, v) :: rest => if k2 = k then some v else objLookup rest k

/-- A value is nullish (`undefined` or `null`), the condition tested by
`?.` and `??`. -/
def isNullish : JsVal → Bool
  | .undef => true
  | .val .null => true
  | .val _ => false

/-- Strict property access `x.f`: a TypeError (modelled as `.error ()`)
when the base is nullish; otherwise the JS lookup result. -/
def jsMember (x : JsVal) (f : String) : Except Unit JsVal :=
  match x with
  | .undef => .error ()
  | .val .null => .error ()
  | .val (.obj fields) => .ok ((objLookup fields f).elim .undef .val)
  | .val (.arr xs) => .ok (if f = "length" then .val (.num xs.length) else .undef)
  | .val (.str s) => .ok (if f = "length" then .val (.num s.length) else .undef)
  | .val (.num _) => .ok JsVal.undef
  | .val (.bool _) => .ok JsVal.undef

/-- Strict index access `x[i]`: a TypeError when the base is nullish;
otherwise the JS result (arrays by position, strings by character,
objects by the stringified key). -/
def jsIndex (x : JsVal) (i : Nat) : Except Unit JsVal :=
  match x with
  | .undef => .error ()
  | .val .null => .error ()
  | .val (.arr xs) => .ok ((xs.get? i).elim .undef .val)
  | .val (.str s) => .ok (((s.toList.get? i).map String.singleton).elim .undef (fun t => .val (.str t)))
  | .val (.obj fields) => .ok ((objLookup fields (toString i)).elim .undef .val)
  | .val (.num _) => .ok JsVal.undef
  | .val (.bool _) => .ok JsVal.undef

/-- Non-throwing property access, as produced by an optional chain
`x?.f` on a possibly nullish base (nullish bases short-circuit to
`undefined`). -/
def memberOpt (v : Json) (f : String) : JsVal :=
  match jsMember (.val v) f with
  | .error _ => .undef
  | .ok x => x

/-- The nullish-coalescing operator `x ?? d`. -/
def nullishCoalesce (x : JsVal) (d : Json) : Json :=
  match x with
  | .undef => d
  | .val .null => d
  | .val v => v

/-- JavaScript truthiness of a JSON value (`!!v`). -/
def jsTruthy : Json → Bool
  | .null => false
  | .bool b => b
  | .num n => n != 0
  | .str s => s != ""
  | .arr _ => true
  | .obj _ => true

mutual
/-- JavaScript string coercion `String(v)` of a JSON value. -/
def jsToString : Json → String
  | .null => "null"
  | .bool b => if b then "true" else "false"
  | .num n => toString n
  | .str s => s
  | .arr xs => String.intercalate "," (jsToStringElems xs)
  | .obj _ => "[object Object]"

/-- Element coercion used by `Array.prototype.toString` (null elements
render as the empty string). -/
def jsToStringElems : List Json → List String
  | [] => []
  | .null :: xs => "" :: jsToStringElems xs
  | x :: xs => jsToString x :: jsToStringElems xs
end

/-- String coercion of a JS value, as in a template literal. -/
def jsValToString : JsVal → String
  | .undef => "undefined"
  | .val v => jsToString v

def nspaces (n : Nat) : String := String.mk (List.replicate n ' ')

def lbrace : String := "\x7b"

def rbrace : String := "\x7d"

def quoteJsonChar (c : Char) : String :=
  if c = '"' then "\\\""
  else if c = '\\' then "\\\\"
  else if c = '\n' then "\\n"
  else if c = '\t' then "\\t"
  else if c = '\r' then "\\r"
  else String.singleton c

def quoteJson (s : String) : String :=
  "\"" ++ String.join (s.toList.map quoteJsonChar) ++ "\""

mutual
/-- `JSON.stringify(v, null, 2)` at nesting depth `d`. -/
def stringify (d : Nat) : Json → String
  | .null => "null"
  | .bool b => if b then "true" else "false"
  | .num n => toString n
  | .str s => quoteJson s
  | .arr [] => "[]"
  | .arr (x :: xs) =>
      "[\n" ++ String.intercalate ",\n" (stringifyElems (d + 1) (x :: xs)) ++
        "\n" ++ nspaces (2 * d) ++ "]"
  | .obj [] => lbrace ++ rbrace
  | .obj (f :: fs) =>
      lbrace ++ "\n" ++ String.intercalate ",\n" (stringifyFields (d + 1) (f :: fs)) ++
        "\n" ++ nspaces (2 * d) ++ rbrace

def stringifyElems (d : Nat) : List Json → List String
  | [] => []
  | x :: xs => (nspaces (2 * d) ++ stringify d x) :: stringifyElems d xs

def stringifyFields (d : Nat) : List (String × Json) → List String
  | [] => []
  | (k, v) :: fs => (nspaces (2 * d) ++ quoteJson k ++ ": " ++ stringify d v) :: stringifyFields d fs
end

/-- The two authentication shapes accepted by the client
(an Otto API key with optional port, or username/password). -/
inductive Auth where
  | apiKey (key : String) (ottoPort : Option Nat)
  | credentials (username : String) (password : String)

/-- The errors a client operation can reject with:
a `FileMakerError` (its `code` field is the raw JS value assigned to it),
a raw runtime TypeError from a property access on a nullish value,
an uncaught body-parse rejection, or a plain local `Error`. -/
inductive ClientError where
  | fmError (code : JsVal) (message : String)
  | typeError
  | jsonParseError
  | localError (message : String)

/-- The response of a login (`POST .../sessions`) call: HTTP ok flag and
status, the JSON body (`none` when the body is unparseable), and the
`X-FM-Data-Access-Token` header. -/
structure LoginResponse where
  ok : Bool
  status : Nat
  body : Option Json
  tokenHeader : Option String

/-- The response of a record/metadata/session HTTP call: ok flag, status,
and the JSON body (`none` when the body is unparseable). -/
structure HttpResponse where
  ok : Bool
  status : Nat
  body : Option Json

/-- Outcome of `getToken`: the returned token or error, the new value of
the cached-token cell, and how many login calls were performed. -/
structure TokenResult where
  result : Except ClientError String
  newToken : Option String
  loginCalls : Nat

/-- The `message` property of an Error constructed from a JS value
(`undefined` leaves it empty, anything else is string-coerced). -/
def jsValMessage : JsVal → String
  | .undef => ""
  | .val v => jsToString v

/-- The error built from a failed login response body:
`new FileMakerError(data.messages[0].code, data.messages[0].message)`
with strict (non-optional) member accesses. -/
def loginFailure (data : Json) : ClientError :=
  match jsMember (.val data) "messages" with
  | .error _ => .typeError
  | .ok m =>
    match jsIndex m 0 with
    | .error _ => .typeError
    | .ok e =>
      match jsMember e "code", jsMember e "message" with
      | .ok c, .ok msg => .fmError c (jsValMessage msg)
      | _, _ => .typeError

/-- The login branch of `getToken` (client.ts lines 114-133): one fetch of
the sessions endpoint; on success the token comes from the
`X-FM-Data-Access-Token` header (a falsy header value is rejected with
"Could not get token"); on failure the body is parsed (an unparseable
body propagates the parse rejection) and a `FileMakerError` is built
from `data.messages[0]`.  `prior` is the value the token cell holds on
entry (it is only overwritten on the success path). -/
def fmLogin (prior : Option String) (login : LoginResponse) : TokenResult :=
  let pair : Except ClientError String × Option String :=
    if login.ok then
      match login.tokenHeader with
      | some s =>
        if s = "" then (.error (.localError "Could not get token"), some "")
        else (.ok s, some s)
      | none => (.error (.localError "Could not get token"), none)
    else
      match login.body with
      | none => (.error .jsonParseError, prior)
      | some data => (.error (loginFailure data), prior)
  ⟨pair.1, pair.2, 1⟩

/-- Whether the token cell holds a falsy value (the `!token` test). -/
def isFalsyToken : Option String → Bool
  | none => true
  | some s => s = ""

/-- `getToken(refresh)` (client.ts lines 108-136): under API-key auth the
configured key is returned at once; under credentials a refresh clears
the cell, a truthy cached token is a cache hit, and otherwise one login
call is performed. -/
def getToken (auth : Auth) (tok0 : Option String) (refresh : Bool)
    (login : LoginResponse) : TokenResult :=
  match auth with
  | .apiKey key _ => ⟨.ok key, tok0, 0⟩
  | .credentials _ _ =>
    let tok := if refresh then none else tok0
    match tok with
    | some s => if s = "" then fmLogin (some s) login else ⟨.ok s, some s, 0⟩
    | none => fmLogin none login

/-- The error-code computation of the dispatcher's failure branch:
`respData?.messages?.[0].code ?? "500"` — optional chains on `respData`
and `messages`, then a strict `.code` access (which can throw a
TypeError), then nullish coalescing with the sentinel `"500"`. -/
def errCodeChain (respData : Json) : Except Unit Json :=
  if isNullish (.val respData) then .ok (.str "500")
  else
    match jsMember (.val respData) "messages" with
    | .error e => .error e
    | .ok m =>
      if isNullish m then .ok (.str "500")
      else
        match jsIndex m 0 with
        | .error e => .error e
        | .ok e0 =>
          match jsMember e0 "code" with
          | .error e => .error e
          | .ok c => .ok (nullishCoalesce c (.str "500"))

/-- The message of the dispatcher's `FileMakerError`:
`Filemaker Data API failed with (${res.status}): ${JSON.stringify(respData, null, 2)}`. -/
def requestErrMsg (status : Nat) (respData : Json) : String :=
  "Filemaker Data API failed with (" ++ toString status ++ "): " ++ stringify 0 respData

/-- Response handling shared by `request` (lines 158-176) and the inner
function of `disconnect` (lines 311-329): parse the body treating
failure as `{}`; on a non-ok status throw a `FileMakerError` built by
`errCodeChain`; on ok return `respData.response` (a strict access). -/
def handleResponse (res : HttpResponse) : Except ClientError JsVal :=
  let respData := res.body.getD (.obj [])
  if res.ok then
    match jsMember (.val respData) "response" with
    | .error _ => .error .typeError
    | .ok v => .ok v
  else
    match errCodeChain respData with
    | .error _ => .error .typeError
    | .ok code => .error (.fmError (.val code) (requestErrMsg res.status respData))

/-- Outcome of a dispatched request: result, new token cell, and login
calls performed by the embedded `getToken()`. -/
structure ReqResult where
  result : Except ClientError JsVal
  newToken : Option String
  loginCalls : Nat

/-- The request dispatcher (client.ts lines 138-177): obtain a token with
`refresh = false`, then perform the HTTP call and normalize the
response with `handleResponse`. -/
def request (auth : Auth) (tok0 : Option String) (login : LoginResponse)
    (res : HttpResponse) : ReqResult :=
  let t := getToken auth tok0 false login
  match t.result with
  | .error e => ⟨.error e, t.newToken, t.loginCalls⟩
  | .ok _ => ⟨handleResponse res, t.newToken, t.loginCalls⟩

/-- Whether an error is a `FileMakerError` whose code is strictly equal
to the string `"401"` (`e instanceof FileMakerError && e.code === "401"`). -/
def isFm401 : ClientError → Bool
  | .fmError (.val (.str c)) _ => c = "401"
  | _ => false

/-- The object literal `{ data: [] }` returned by `find` when a 401 error
is suppressed. -/
def emptyFindResult : JsVal := .val (.obj [("data", .arr [])])

/-- The `.catch` handler of `find` (client.ts lines 357-361): a
`FileMakerError` with code `"401"` is converted into `{ data: [] }`
when `ignoreEmptyResult` is set; every other rejection is rethrown. -/
def findCatch (ignoreEmptyResult : Bool) (outcome : Except ClientError JsVal) :
    Except ClientError JsVal :=
  match outcome with
  | .ok v => .ok v
  | .error e =>
    if ignoreEmptyResult && isFm401 e then .ok emptyFindResult else .error e

/-- The query coercion of `find` (line 352): a non-array query is wrapped
in a one-element array. -/
def coerceQuery (q : Json) : Json :=
  match q with
  | .arr _ => q
  | v => .arr [v]

/-- `find` (client.ts lines 338-362): dispatch the request and apply the
401-suppression catch handler to its outcome. -/
def find (ignoreEmptyResult : Bool) (auth : Auth) (tok0 : Option String)
    (login : LoginResponse) (res : HttpResponse) : ReqResult :=
  let r := request auth tok0 login res
  ⟨findCatch ignoreEmptyResult r.result, r.newToken, r.loginCalls⟩

/-- The fields of `{...x}`: object fields spread in order, strings spread
by index, all other values spread to nothing. -/
def spreadFields : JsVal → List (String × JsVal)
  | .val (.obj fs) => fs.map (fun p => (p.1, JsVal.val p.2))
  | .val (.str s) => s.toList.enum.map (fun p => (toString p.1, JsVal.val (.str (String.singleton p.2))))
  | _ => []

/-- Property update by an object literal: the value at an existing key is
replaced in place, a new key is appended.  (A JS object holds each key at
most once, so replacing the first occurrence is exact.) -/
def setFieldJs (fields : List (String × JsVal)) (k : String) (v : JsVal) :
    List (String × JsVal) :=
  match fields with
  | [] => [(k, v)]
  | (k2, w) :: rest => if k2 = k then (k, v) :: rest else (k2, w) :: setFieldJs rest k v

/-- First-match lookup in a spread object. -/
def jsObjLookup (fields : List (String × JsVal)) (k : String) : Option JsVal :=
  match fields with
  | [] => none
  | (k2, v) :: rest => if k2 = k then some v else jsObjLookup rest k

/-- Strict equality of a JS value with the number literal `1`. -/
def jsStrictEqOne : JsVal → Bool
  | .val (.num n) => n == 1
  | _ => false

/-- `findOne` (client.ts lines 367-379) applied to the outcome of `find`:
errors propagate; otherwise `res.data.length` is computed with strict
accesses, a count different from 1 throws a plain local Error naming
the count, and exactly one record yields `{...res, data: res.data[0]}`. -/
def findOne (outcome : Except ClientError JsVal) :
    Except ClientError (List (String × JsVal)) :=
  match outcome with
  | .error e => .error e
  | .ok res =>
    match jsMember res "data" with
    | .error _ => .error .typeError
    | .ok d =>
      match jsMember d "length" with
      | .error _ => .error .typeError
      | .ok len =>
        if jsStrictEqOne len then
          match jsIndex d 0 with
          | .error _ => .error .typeError
          | .ok d0 => .ok (setFieldJs (spreadFields res) "data" d0)
        else
          .error (.localError (jsValToString len ++ " records found; expecting exactly 1"))

/-- Property update by `Object.assign` on a JSON params object: the value
at an existing key is replaced in place, a new key is appended.  (A JS
object holds each key at most once, so replacing the first occurrence is
exact.) -/
def setField (fields : List (String × Json)) (k : String) (v : Json) :
    List (String × Json) :=
  match fields with
  | [] => [(k, v)]
  | (k2, w) :: rest => if k2 = k then (k, v) :: rest else (k2, w) :: setField rest k v

/-- Property removal by `delete`.  (A JS object holds each key at most
once, so removing every occurrence is exact.) -/
def eraseField (fields : List (String × Json)) (k : String) :
    List (String × Json) :=
  match fields with
  | [] => []
  | (k2, w) :: rest => if k2 = k then eraseField rest k else (k2, w) :: eraseField rest k

/-- One renaming step of `list` (client.ts lines 193-200):
`if (!!params.k) delete Object.assign(params, { nk: f(params.k) })["k"]`. -/
def renameParam (params : List (String × Json)) (k nk : String)
    (f : Json → Json) : List (String × Json) :=
  match objLookup params k with
  | some v => if jsTruthy v then eraseField (setField params nk (f v)) k else params
  | none => params

/-- The sort wrapper: `Array.isArray(params.sort) ? params.sort : [params.sort]`. -/
def wrapSort (v : Json) : Json :=
  match v with
  | .arr _ => v
  | _ => .arr [v]

/-- The parameter shaping of `list` (client.ts lines 192-200): the
truthiness-guarded renames of `limit`, `offset` and `sort`, in order. -/
def shapeListParams (params : List (String × Json)) : List (String × Json) :=
  renameParam
    (renameParam (renameParam params "limit" "_limit" id) "offset" "_offset" id)
    "sort" "_sort" wrapSort

/-- The logical request built by an operation. -/
structure LogicalRequest where
  url : String
  method : String
  query : Option (List (String × Json))
  body : Option Json

/-- The logical request built by `list` (client.ts lines 202-207). -/
def listRequest (layout : String) (params : List (String × Json)) : LogicalRequest :=
  ⟨"/layouts/" ++ layout ++ "/records", "GET", some (shapeListParams params), none⟩

/-- Outcome of `disconnect`: result, new token cell, login calls, and
session-deletion (DELETE) calls performed. -/
structure DisconnectOutcome where
  result : Except ClientError JsVal
  newToken : Option String
  loginCalls : Nat
  deleteCalls : Nat

/-- `disconnect` (client.ts lines 295-333): under API-key auth it throws
synchronously before any token acquisition or network call; under
credentials it obtains a token (logging in when none is cached), issues
one DELETE of the session resource, and normalizes the response exactly
as the dispatcher does.  The token cell is never cleared. -/
def disconnect (auth : Auth) (tok0 : Option String) (login : LoginResponse)
    (res : HttpResponse) : DisconnectOutcome :=
  match auth with
  | .apiKey _ _ =>
    ⟨.error (.localError "Cannot disconnect when using Otto API key."), tok0, 0, 0⟩
  | .credentials u p =>
    let t := getToken (.credentials u p) tok0 false login
    match t.result with
    | .error e => ⟨.error e, t.newToken, t.loginCalls, 0⟩
    | .ok _ => ⟨handleResponse res, t.newToken, t.loginCalls, 1⟩

/-- A parsed base URL (the URL built-in is external to the client; the
client only appends to the path and assigns the port). -/
structure UrlParts where
  scheme : String
  host : String
  port : Option Nat
  path : String

/-- The state a client holds after construction. -/
structure ClientState where
  baseUrl : UrlParts
  token : Option String

/-- The constructor body of `DataApi` (client.ts lines 99-106): build the
base URL from the validated server URL and database name; under API-key
auth assign `baseUrl.port = ottoPort ?? 3030` and seed the token cell
with the key; under credentials leave the URL untouched and the cell
empty. -/
def mkClient (server : UrlParts) (db : String) (auth : Auth) : ClientState :=
  let base : UrlParts :=
    { server with path := server.path ++ "/fmi/data/vLatest/databases/" ++ db }
  match auth with
  | .apiKey key ottoPort => ⟨{ base with port := some (ottoPort.getD 3030) }, some key⟩
  | .credentials _ _ => ⟨base, none⟩

/-! ### Helper lemmas about the token manager -/

/-- A truthy cached token under credentials is a cache hit: no login call,
cell untouched. -/
theorem getToken_cached_hit (u p t : String) (login : LoginResponse) (ht : ¬ t = "") :
    getToken (.credentials u p) (some t) false login = ⟨.ok t, some t, 0⟩ := by
  simp [getToken, ht]

/-- The login branch always performs exactly one login call. -/
theorem fmLogin_loginCalls (prior : Option String) (login : LoginResponse) :
    (fmLogin prior login).loginCalls = 1 := rfl

/-- A successful login with a truthy token header caches and returns the
header value. -/
theorem fmLogin_success (prior : Option String) (login : LoginResponse) (s : String)
    (hs : ¬ s = "") (hok : login.ok = true) (hth : login.tokenHeader = some s) :
    fmLogin prior login = ⟨.ok s, some s, 1⟩ := by
  simp [fmLogin, hok, hth, hs]

/-- A refresh request under credentials always takes the login branch with
a cleared cell. -/
theorem getToken_refresh_login (u p : String) (tok0 : Option String) (login : LoginResponse) :
    getToken (.credentials u p) tok0 true login = fmLogin none login := by
  simp [getToken]

/-- A cache miss under credentials takes the login branch. -/
theorem getToken_miss_login (u p : String) (login : LoginResponse) :
    getToken (.credentials u p) none false login = fmLogin none login := by
  simp [getToken]

/-! ### Claim theorems -/

/-- C1: Under Credentials auth mode, `getToken` with `forceRefresh = false`
and a cached (truthy) token returns the cached token with no login call
and leaves the cell unchanged; with `forceRefresh = true` it performs
exactly one login call regardless of the prior cache state, and when the
login succeeds with a token header it caches and returns that new token. -/
theorem getToken_credentials_cache_and_refresh (u p t : String) (tok0 : Option String)
    (login : LoginResponse) (ht : ¬ t = "") :
    getToken (.credentials u p) (some t) false login = ⟨.ok t, some t, 0⟩
    ∧ (getToken (.credentials u p) tok0 true login).loginCalls = 1
    ∧ (∀ s, ¬ s = "" → login.ok = true → login.tokenHeader = some s →
        getToken (.credentials u p) tok0 true login = ⟨.ok s, some s, 1⟩) := by
  refine ⟨getToken_cached_hit u p t login ht, ?_, ?_⟩
  · rw [getToken_refresh_login]
    exact fmLogin_loginCalls none login
  · intro s hs hok hth
    rw [getToken_refresh_login]
    exact fmLogin_success none login s hs hok hth

/-- C1 witness: at a concrete client, a forced refresh with a successful
login returns and caches the fresh token after exactly one login call. -/
theorem getToken_credentials_cache_and_refresh_witness :
    getToken (.credentials "u" "p") none true ⟨true, 200, none, some "abc"⟩
      = ⟨.ok "abc", some "abc", 1⟩ :=
  (getToken_credentials_cache_and_refresh "u" "p" "t0" none ⟨true, 200, none, some "abc"⟩
    (by decide)).2.2 "abc" (by decide) rfl rfl

/-- C2: Under ApiKey auth mode, `getToken` always returns the configured
key, for every `forceRefresh` value, performs no login call and leaves
the cached-token cell untouched. -/
theorem getToken_apiKey_noop (key : String) (ottoPort : Option Nat) (tok0 : Option String)
    (refresh : Bool) (login : LoginResponse) :
    getToken (.apiKey key ottoPort) tok0 refresh login = ⟨.ok key, tok0, 0⟩ := rfl

/-- C7: Under ApiKey auth mode, `disconnect` always fails immediately with
the local "Cannot disconnect" error: no login call, no session-deletion
call, token cell untouched. -/
theorem disconnect_apiKey_fails (key : String) (ottoPort : Option Nat) (tok0 : Option String)
    (login : LoginResponse) (res : HttpResponse) :
    disconnect (.apiKey key ottoPort) tok0 login res
      = ⟨.error (.localError "Cannot disconnect when using Otto API key."), tok0, 0, 0⟩ := rfl

/-- C9: A non-2xx response whose body parses to an object with a present
but empty `messages` array makes the dispatcher fail with a raw TypeError
(reading `.code` of an undefined first element), not with a
`FileMakerError` carrying the sentinel code "500". -/
theorem request_empty_messages_raw_type_error :
    (request (.credentials "admin" "pw") (some "cached") ⟨true, 200, none, none⟩
        ⟨false, 500, some (.obj [("messages", .arr [])])⟩).result
      = .error .typeError := rfl

/-- C10: At construction, ApiKey auth sets the base URL port to the
configured `ottoPort`, or 3030 when absent; Credentials auth leaves the
server URL's port (and the rest of the URL authority) unchanged. -/
theorem mkClient_port (server : UrlParts) (db key u pw : String) (port : Nat) :
    (mkClient server db (.apiKey key (some port))).baseUrl.port = some port
    ∧ (mkClient server db (.apiKey key none)).baseUrl.port = some 3030
    ∧ (mkClient server db (.credentials u pw)).baseUrl.port = server.port
    ∧ (mkClient server db (.credentials u pw)).baseUrl.scheme = server.scheme
    ∧ (mkClient server db (.credentials u pw)).baseUrl.host = server.host :=
  ⟨rfl, rfl, rfl, rfl, rfl⟩

/-- `x ?? d` returns `x` when `x` is a non-null JSON value. -/
theorem nullishCoalesce_not_null (c d : Json) (hc : ¬ c = .null) :
    nullishCoalesce (.val c) d = c := by
  cases c
  case null => exact absurd rfl hc
  all_goals rfl

/-- When the parsed body's `messages` access is nullish, the optional
chain falls through to the sentinel code "500". -/
theorem errCodeChain_messages_nullish (data : Json)
    (hm : isNullish (memberOpt data "messages") = true) :
    errCodeChain data = .ok (.str "500") := by
  cases data <;> simp_all [errCodeChain, memberOpt, jsMember, isNullish]

/-- C3 counterexample: a non-2xx response whose body parses to a present
but empty `messages` array makes the dispatcher fail with a raw
TypeError, not with a `FileMakerError`; so not every non-2xx response
yields a NormalizedError. -/
theorem request_normalization_counterexample :
    (request (.apiKey "key" none) none ⟨true, 200, none, none⟩
        ⟨false, 400, some (.obj [("messages", .arr [])])⟩).result
      = .error .typeError := rfl

/-- C3 (amended): the dispatcher parses every body, treating parse failure
as the empty object; given an available token, a non-2xx response whose
parsed body has no (or a nullish) `messages` value fails with a
`FileMakerError` carrying the sentinel code "500" and a message embedding
the HTTP status and the pretty-printed body; when the `messages` array
has a first entry with a non-null `code`, that code is used; a non-2xx
response with an unparseable body yields the sentinel "500" and never an
unhandled parse exception.  (Only when `messages` is present and
non-nullish but its first element is nullish or missing does the
dispatcher instead fail with a raw TypeError — the counterexample.) -/
theorem request_error_normalization (auth : Auth) (tok0 : Option String)
    (login : LoginResponse) (res : HttpResponse) (ok : Bool) (status : Nat)
    (data c : Json) (fields efields : List (String × Json)) (rest : List Json)
    (t : String) (tok1 : Option String) (n : Nat) :
    (request auth tok0 login ⟨ok, status, none⟩
       = request auth tok0 login ⟨ok, status, some (.obj [])⟩)
    ∧ (getToken auth tok0 false login = ⟨.ok t, tok1, n⟩ →
        request auth tok0 login res = ⟨handleResponse res, tok1, n⟩)
    ∧ (isNullish (memberOpt data "messages") = true →
        handleResponse ⟨false, status, some data⟩
          = .error (.fmError (.val (.str "500")) (requestErrMsg status data)))
    ∧ (objLookup fields "messages" = some (.arr (.obj efields :: rest)) →
        objLookup efields "code" = some c → ¬ c = .null →
        handleResponse ⟨false, status, some (.obj fields)⟩
          = .error (.fmError (.val c) (requestErrMsg status (.obj fields))))
    ∧ (handleResponse ⟨false, status, none⟩
        = .error (.fmError (.val (.str "500")) (requestErrMsg status (.obj [])))) := by
  refine ⟨rfl, ?_, ?_, ?_, rfl⟩
  · intro h
    simp [request, h]
  · intro hm
    simp [handleResponse, errCodeChain_messages_nullish data hm]
  · intro hm hc hcn
    simp [handleResponse, errCodeChain, jsMember, jsIndex, isNullish, hm, hc,
      nullishCoalesce_not_null c (.str "500") hcn]

/-- C3 witness: a concrete 401 response with a well-formed error envelope
is normalized to a `FileMakerError` with the server's code. -/
theorem request_error_normalization_witness :
    handleResponse ⟨false, 401,
        some (.obj [("messages", .arr [.obj [("code", .str "401"), ("message", .str "No records match the request")]])])⟩
      = .error (.fmError (.val (.str "401"))
          (requestErrMsg 401
            (.obj [("messages", .arr [.obj [("code", .str "401"), ("message", .str "No records match the request")]])]))) :=
  (request_error_normalization (.apiKey "k" none) none ⟨true, 200, none, none⟩
      ⟨true, 200, none⟩ true 401
      (.obj []) (.str "401")
      [("messages", .arr [.obj [("code", .str "401"), ("message", .str "No records match the request")]])]
      [("code", .str "401"), ("message", .str "No records match the request")] []
      "k" none 0).2.2.2.1 rfl rfl (fun h => Json.noConfusion h)

/-- C4: the `find` catch handler converts a dispatcher failure that is a
`FileMakerError` with code "401" into a successful `{ data: [] }` exactly
when `ignoreEmptyResult` is true; every other error, and every error when
the flag is false, propagates unchanged. -/
theorem find_ignore_empty_behavior (auth : Auth) (tok0 : Option String)
    (login : LoginResponse) (res : HttpResponse) (msg : String) (e : ClientError) (b : Bool) :
    ((request auth tok0 login res).result = .error (.fmError (.val (.str "401")) msg) →
        (find true auth tok0 login res).result = .ok emptyFindResult)
    ∧ ((request auth tok0 login res).result = .error e → isFm401 e = false →
        (find b auth tok0 login res).result = .error e)
    ∧ ((request auth tok0 login res).result = .error e →
        (find false auth tok0 login res).result = .error e) := by
  refine ⟨?_, ?_, ?_⟩
  · intro h
    simp [find, findCatch, h, isFm401]
  · intro h hn
    simp [find, findCatch, h, hn]
  · intro h
    simp [find, findCatch, h]

/-- C4 witness: a concrete "no records" 401 response under
`ignoreEmptyResult = true` resolves to `{ data: [] }`. -/
theorem find_ignore_empty_behavior_witness :
    (find true (.apiKey "k" none) none ⟨true, 200, none, none⟩
        ⟨false, 401, some (.obj [("messages", .arr [.obj [("code", .str "401"), ("message", .str "No records match")]])])⟩).result
      = .ok emptyFindResult :=
  (find_ignore_empty_behavior (.apiKey "k" none) none ⟨true, 200, none, none⟩
      ⟨false, 401, some (.obj [("messages", .arr [.obj [("code", .str "401"), ("message", .str "No records match")]])])⟩
      (requestErrMsg 401 (.obj [("messages", .arr [.obj [("code", .str "401"), ("message", .str "No records match")]])]))
      .typeError true).1 rfl

/-- C8: Under Credentials auth mode, `disconnect` with a truthy cached
token performs no login, issues one session-deletion call and leaves the
cell holding that token; with an empty cell it first performs exactly one
login, issues one session-deletion call and leaves the cell holding the
newly acquired token — the token is never cleared. -/
theorem disconnect_credentials_token_frame (u p t : String) (login : LoginResponse)
    (res : HttpResponse) :
    (¬ t = "" →
      disconnect (.credentials u p) (some t) login res
        = ⟨handleResponse res, some t, 0, 1⟩)
    ∧ (∀ s, ¬ s = "" → login.ok = true → login.tokenHeader = some s →
      disconnect (.credentials u p) none login res
        = ⟨handleResponse res, some s, 1, 1⟩) := by
  constructor
  · intro ht
    simp [disconnect, getToken_cached_hit u p t login ht]
  · intro s hs hok hth
    simp [disconnect, getToken_miss_login, fmLogin_success none login s hs hok hth]

/-- C8 witness: a concrete disconnect with no cached token logs in once,
issues the deletion call, and leaves the fresh token cached. -/
theorem disconnect_credentials_token_frame_witness :
    disconnect (.credentials "u" "p") none ⟨true, 200, none, some "abc"⟩
        ⟨true, 200, some (.obj [("response", .obj [])])⟩
      = ⟨handleResponse ⟨true, 200, some (.obj [("response", .obj [])])⟩, some "abc", 1, 1⟩ :=
  (disconnect_credentials_token_frame "u" "p" "x" ⟨true, 200, none, some "abc"⟩
      ⟨true, 200, some (.obj [("response", .obj [])])⟩).2 "abc" (by decide) rfl rfl

/-- `toString` of a natural number cast to `Int` is its decimal string. -/
theorem toString_intCast_nat (n : Nat) : toString ((n : Int)) = toString n := rfl

/-- C6: `findOne` on a find result whose `data` array holds exactly one
record returns that record unwrapped (spliced over the envelope's `data`
field); any other count fails with a plain local Error naming the actual
count — a local error, distinct from every `FileMakerError`. -/
theorem findOne_exactly_one (fields : List (String × Json)) (rs : List Json) (r : Json)
    (msg msg2 : String) (code : JsVal)
    (hdata : objLookup fields "data" = some (.arr rs)) :
    (rs = [r] →
      findOne (.ok (.val (.obj fields)))
        = .ok (setFieldJs (fields.map (fun p => (p.1, JsVal.val p.2))) "data" (.val r)))
    ∧ (¬ rs.length = 1 →
      findOne (.ok (.val (.obj fields)))
        = .error (.localError (toString rs.length ++ " records found; expecting exactly 1")))
    ∧ (ClientError.localError msg ≠ ClientError.fmError code msg2) := by
  refine ⟨?_, ?_, fun h => ClientError.noConfusion h⟩
  · intro hr
    subst hr
    simp [findOne, jsMember, hdata, jsIndex, jsStrictEqOne, spreadFields]
  · intro h1
    have hb : ¬ ((rs.length : Int) = 1) := by exact_mod_cast h1
    simp [findOne, jsMember, hdata, jsStrictEqOne, jsValToString, jsToString, hb,
      toString_intCast_nat]

/-- C6 witness: a concrete one-record find result is unwrapped in place. -/
theorem findOne_exactly_one_witness :
    findOne (.ok (.val (.obj [("dataInfo", .str "i"), ("data", .arr [.obj [("fieldData", .obj [])]])])))
      = .ok [("dataInfo", .val (.str "i")), ("data", .val (.obj [("fieldData", .obj [])]))] :=
  (findOne_exactly_one [("dataInfo", .str "i"), ("data", .arr [.obj [("fieldData", .obj [])]])]
      [.obj [("fieldData", .obj [])]] (.obj [("fieldData", .obj [])]) "" "" .undef rfl).1 rfl

/-! ### Lookup lemmas for the `list` parameter shaping -/

theorem objLookup_setField_self (l : List (String × Json)) (k : String) (v : Json) :
    objLookup (setField l k v) k = some v := by
  induction l with
  | nil => simp [setField, objLookup]
  | cons p rest ih =>
    obtain ⟨k2, w⟩ := p
    by_cases h : k2 = k <;> simp [setField, objLookup, h, ih]

theorem objLookup_setField_other (l : List (String × Json)) (k k2 : String) (v : Json)
    (h : ¬ k2 = k) :
    objLookup (setField l k v) k2 = objLookup l k2 := by
  induction l with
  | nil => simp [setField, objLookup, Ne.symm h]
  | cons p rest ih =>
    obtain ⟨k3, w⟩ := p
    by_cases h3 : k3 = k
    · subst h3
      simp [setField, objLookup, Ne.symm h]
    · by_cases h32 : k3 = k2
      · subst h32
        simp [setField, objLookup, h3, h]
      · simp [setField, objLookup, h3, h32, ih]

theorem objLookup_eraseField_self (l : List (String × Json)) (k : String) :
    objLookup (eraseField l k) k = none := by
  induction l with
  | nil => rfl
  | cons p rest ih =>
    obtain ⟨k2, w⟩ := p
    by_cases h : k2 = k <;> simp [eraseField, objLookup, h, ih]

theorem objLookup_eraseField_other (l : List (String × Json)) (k k2 : String)
    (h : ¬ k2 = k) :
    objLookup (eraseField l k) k2 = objLookup l k2 := by
  induction l with
  | nil => rfl
  | cons p rest ih =>
    obtain ⟨k3, w⟩ := p
    by_cases h3 : k3 = k
    · subst h3
      simp [eraseField, objLookup, Ne.symm h, ih]
    · by_cases h32 : k3 = k2
      · subst h32
        simp [eraseField, objLookup, h3, ih]
      · simp [eraseField, objLookup, h3, h32, ih]

/-- A rename step does nothing when the key is absent. -/
theorem renameParam_absent (params : List (String × Json)) (k nk : String) (f : Json → Json)
    (h : objLookup params k = none) :
    renameParam params k nk f = params := by
  simp [renameParam, h]

/-- A rename step does nothing when the key's value is falsy. -/
theorem renameParam_falsy (params : List (String × Json)) (k nk : String) (f : Json → Json)
    (v : Json) (h : objLookup params k = some v) (hv : jsTruthy v = false) :
    renameParam params k nk f = params := by
  simp [renameParam, h, hv]

/-- A rename step on a truthy key installs the transformed value at the
new key and removes the old key. -/
theorem renameParam_truthy (params : List (String × Json)) (k nk : String) (f : Json → Json)
    (v : Json) (hkn : ¬ k = nk) (h : objLookup params k = some v) (hv : jsTruthy v = true) :
    objLookup (renameParam params k nk f) nk = some (f v)
    ∧ objLookup (renameParam params k nk f) k = none := by
  constructor
  · simp [renameParam, h, hv,
      objLookup_eraseField_other _ _ _ (fun hh => hkn hh.symm), objLookup_setField_self]
  · simp [renameParam, h, hv, objLookup_eraseField_self]

/-- A rename step leaves every other key's lookup unchanged. -/
theorem renameParam_other (params : List (String × Json)) (k nk : String) (f : Json → Json)
    (k2 : String) (h1 : ¬ k2 = k) (h2 : ¬ k2 = nk) :
    objLookup (renameParam params k nk f) k2 = objLookup params k2 := by
  unfold renameParam
  cases h : objLookup params k with
  | none => rfl
  | some v =>
    by_cases hv : jsTruthy v
    · simp [hv, objLookup_eraseField_other _ _ _ h1, objLookup_setField_other _ _ _ _ h2]
    · simp [hv]

/-- C5 counterexample: a `list` call with `limit: 0` — the key is present
but falsy, so the outgoing query keeps `limit` unrenamed and no `_limit`
key is injected, contradicting rename-on-presence. -/
theorem list_rename_counterexample :
    (listRequest "people" [("limit", .num 0)]).query = some [("limit", .num 0)] := rfl

/-- C5 (amended): `limit`, `offset` and `sort` are renamed to `_limit`,
`_offset` and `_sort` when present with a truthy value (`sort` being
wrapped in a one-element sequence when not already one); a key that is
absent — or present with a falsy value such as `0` — is never renamed,
and absent keys are never injected. -/
theorem list_rename_amended (params : List (String × Json)) (lv ov sv : Json)
    (s : String) (xs : List Json) :
    (shapeListParams [("limit", .num 10), ("offset", .num 5), ("sort", .str "Name")]
      = [("_limit", .num 10), ("_offset", .num 5), ("_sort", .arr [.str "Name"])])
    ∧ (objLookup params "limit" = none → objLookup params "offset" = none →
        objLookup params "sort" = none → shapeListParams params = params)
    ∧ (objLookup params "limit" = some lv → jsTruthy lv = false →
        objLookup params "offset" = none → objLookup params "sort" = none →
        shapeListParams params = params)
    ∧ (objLookup params "limit" = some lv → jsTruthy lv = true →
        objLookup params "offset" = some ov → jsTruthy ov = true →
        objLookup params "sort" = some sv → jsTruthy sv = true →
        objLookup (shapeListParams params) "_limit" = some lv
        ∧ objLookup (shapeListParams params) "_offset" = some ov
        ∧ objLookup (shapeListParams params) "_sort" = some (wrapSort sv)
        ∧ objLookup (shapeListParams params) "limit" = none
        ∧ objLookup (shapeListParams params) "offset" = none
        ∧ objLookup (shapeListParams params) "sort" = none)
    ∧ (wrapSort (.str s) = .arr [.str s]) ∧ (wrapSort (.arr xs) = .arr xs) := by
  refine ⟨rfl, ?_, ?_, ?_, rfl, rfl⟩
  · intro hl ho hs
    unfold shapeListParams
    rw [renameParam_absent _ _ _ _ hl, renameParam_absent _ _ _ _ ho,
      renameParam_absent _ _ _ _ hs]
  · intro hl hlf ho hs
    unfold shapeListParams
    rw [renameParam_falsy _ _ _ _ _ hl hlf, renameParam_absent _ _ _ _ ho,
      renameParam_absent _ _ _ _ hs]
  · intro hl hlt ho hot hs hst
    unfold shapeListParams
    have hl2 : objLookup (renameParam params "limit" "_limit" id) "offset"
        = some ov := by
      rw [renameParam_other _ _ _ _ _ (by decide) (by decide)]; exact ho
    have hs2 : objLookup (renameParam (renameParam params "limit" "_limit" id)
        "offset" "_offset" id) "sort" = some sv := by
      rw [renameParam_other _ _ _ _ _ (by decide) (by decide),
        renameParam_other _ _ _ _ _ (by decide) (by decide)]
      exact hs
    refine ⟨?_, ?_, ?_, ?_, ?_, ?_⟩
    · rw [renameParam_other _ _ _ _ _ (by decide) (by decide),
        renameParam_other _ _ _ _ _ (by decide) (by decide)]
      exact (renameParam_truthy params "limit" "_limit" id lv (by decide) hl hlt).1
    · rw [renameParam_other _ _ _ _ _ (by decide) (by decide)]
      exact (renameParam_truthy _ "offset" "_offset" id ov (by decide) hl2 hot).1
    · exact (renameParam_truthy _ "sort" "_sort" wrapSort sv (by decide) hs2 hst).1
    · rw [renameParam_other _ _ _ _ _ (by decide) (by decide),
        renameParam_other _ _ _ _ _ (by decide) (by decide)]
      exact (renameParam_truthy params "limit" "_limit" id lv (by decide) hl hlt).2
    · rw [renameParam_other _ _ _ _ _ (by decide) (by decide)]
      exact (renameParam_truthy _ "offset" "_offset" id ov (by decide) hl2 hot).2
    · exact (renameParam_truthy _ "sort" "_sort" wrapSort sv (by decide) hs2 hst).2

/-- C5 witness: on the spec's example parameters, the shaped query holds
`_sort` with the sort value wrapped in a one-element sequence. -/
theorem list_rename_amended_witness :
    objLookup (shapeListParams [("limit", .num 10), ("offset", .num 5), ("sort", .str "Name")])
        "_sort" = some (.arr [.str "Name"]) :=
  ((list_rename_amended [("limit", .num 10), ("offset", .num 5), ("sort", .str "Name")]
      (.num 10) (.num 5) (.str "Name") "Name" []).2.2.2.1
    rfl rfl rfl rfl rfl rfl).2.2.1

end FmDataApi
